import Mathlib

/-!
Verification of the BillScan AI (OpenOCR) repository against its
natural-language specification.

The repository ships the React client (client/src/api.js, pages/UploadPage.jsx,
pages/JobsDashboard.jsx, pages/JobDetail.jsx, App.jsx, hooks/useWebSocket.js),
the repository README (database schema, pipeline and API documentation) and two
product requirement documents. The FastAPI backend (server/routes.py,
server/ocr_engine.py, server/extractor.py, server/database.py) is not part of
the source tree, so backend behaviour is modelled from the spec and from the
README where indicated; client behaviour is embedded directly from the JSX/JS
sources.

Numbers are modelled as rationals (full precision, as JS floats carry the
values of interest exactly here), JS strings as Lean strings, nullable values
as Option.
-/

/- ===================== JavaScript helper semantics ===================== -/

/-- Semantics of the JS expression x or-else d for a string-valued x that may
be null or undefined: null, undefined and the empty string are falsy. -/
def jsOr (o : Option String) (fallback : String) : String :=
  match o with
  | some s => if s = "" then fallback else s
  | none => fallback

/-- Semantics of JS truthiness for a nullable string: null, undefined and the
empty string are falsy. Used for the f.value test in JobDetail.jsx. -/
def jsTruthy (o : Option String) : Bool :=
  match o with
  | some s => s != ""
  | none => false

/-- Semantics of JS Math.round on a rational: round half toward positive
infinity, that is the floor of q + 1/2. -/
def jsMathRound (q : ℚ) : ℤ := ⌊q + 1/2⌋

/-- ASCII lowercasing of a string, the behaviour of JS toLowerCase on the
ASCII file names and extensions handled by the upload page. -/
def jsToLowerCase (s : String) : String := String.mk (s.toList.map Char.toLower)

/-- Helper for jsLastSegment: walks the characters, resetting the accumulator
at each separator, so the final accumulator is the segment after the last
separator (the whole string when the separator does not occur). -/
def jsLastSegmentAux (sep : Char) : List Char → List Char → List Char
  | [], acc => acc
  | c :: rest, acc =>
    if c = sep then jsLastSegmentAux sep rest []
    else jsLastSegmentAux sep rest (acc ++ [c])

/-- Semantics of the JS expression name.split(sep).pop(): the segment after
the last occurrence of sep, or the whole string when sep does not occur. -/
def jsLastSegment (sep : Char) (s : String) : String :=
  String.mk (jsLastSegmentAux sep s.toList [])

/- ===================== client/src/api.js : request ===================== -/

/-- Error payload shape of a JSON error response body, as read by request in
client/src/api.js (err.detail and err.error). -/
structure RespBody where
  detail : Option String
  error : Option String
deriving DecidableEq

/-- The parts of a fetch Response used by request in client/src/api.js:
status code, statusText, and the parse result of res.json() (none when the
body is not valid JSON, in which case the catch handler substitutes a body
with detail set to res.statusText). -/
structure HttpResponse where
  status : Nat
  statusText : String
  body : Option RespBody
deriving DecidableEq

/-- The browser-side stored credentials and location mutated by request in
client/src/api.js: localStorage token, localStorage user, window.location. -/
structure AuthStore where
  token : Option String
  user : Option String
  location : String
deriving DecidableEq

/-- Outcome of one request call: success, or a thrown Error with its message. -/
inductive ReqResult where
  | success : ReqResult
  | failure : String → ReqResult
deriving DecidableEq

/-- Semantics of fetch res.ok: status in the inclusive range 200 to 299. -/
def resOk (status : Nat) : Bool := decide (200 ≤ status ∧ status ≤ 299)

/-- Embedding of the response-handling tail of request in client/src/api.js,
lines 7 to 30: on status 401 remove token and user from localStorage, set
window.location.href to the root and throw Session expired; on any other
non-ok status throw an Error whose message is err.detail or err.error or the
literal Request failed, where err is the parsed JSON body or, when parsing
fails, an object whose detail is res.statusText; otherwise return the
response, leaving the store untouched. -/
def request (st : AuthStore) (res : HttpResponse) : ReqResult × AuthStore :=
  if res.status = 401 then
    (ReqResult.failure ("Session expired"),
      { token := none, user := none, location := "/" })
  else if resOk res.status = false then
    let err := res.body.getD { detail := some res.statusText, error := none }
    (ReqResult.failure (jsOr err.detail (jsOr err.error ("Request failed"))), st)
  else
    (ReqResult.success, st)

/- ================ client/src/pages/UploadPage.jsx ================ -/

/-- The allowed list of handleFiles in client/src/pages/UploadPage.jsx. -/
def allowedExtensions : List String :=
  [".pdf", ".png", ".jpg", ".jpeg", ".bmp", ".tiff", ".tif", ".webp"]

/-- The expression a dot prepended to f.name.split(dot).pop().toLowerCase()
computed by handleFiles in client/src/pages/UploadPage.jsx. -/
def jsFileExt (name : String) : String :=
  "." ++ jsToLowerCase (jsLastSegment '.' name)

/-- The per-file acceptance predicate of handleFiles in
client/src/pages/UploadPage.jsx: allowed.includes(ext). -/
def fileAccepted (name : String) : Bool :=
  decide (jsFileExt name ∈ allowedExtensions)

/-- The conventional notion of a file-name extension used by the claim
wording, for comparison with jsFileExt: the part after the last dot when the
name contains a dot, and none when it does not. -/
def fileExtension (name : String) : Option String :=
  if (name.toList.contains '.') then some (jsToLowerCase (jsLastSegment '.' name))
  else none

/-- Embedding of handleFiles in client/src/pages/UploadPage.jsx, lines 11 to
19 (file identity reduced to the file name, the only attribute the filter
reads): returns the new pending list (previous files plus the valid new ones)
and whether the unsupported-format warning toast fires. -/
def handleFiles (pending newFiles : List String) : List String × Bool :=
  let valid := newFiles.filter fileAccepted
  (pending ++ valid, decide (valid.length < newFiles.length))

/-- Embedding of the guard of handleUpload in client/src/pages/UploadPage.jsx,
lines 27 to 40: with an empty pending list nothing is sent (none); otherwise
exactly the pending files are sent to the upload endpoint. -/
def handleUpload (pending : List String) : Option (List String) :=
  if pending.isEmpty then none else some pending

/-- The user interactions that mutate the pending file list on the upload
page: adding files (drop or file picker), removing one by index, clear all. -/
inductive UploadAction where
  | add : List String → UploadAction
  | removeAt : Nat → UploadAction
  | clear : UploadAction

/-- One upload-page state transition: add runs handleFiles, removeAt is the
index filter on the remove button, clear empties the list. -/
def applyUploadAction (pending : List String) : UploadAction → List String
  | UploadAction.add names => (handleFiles pending names).1
  | UploadAction.removeAt i => pending.eraseIdx i
  | UploadAction.clear => []

/-- The pending list reached from the initial empty list by a sequence of
upload-page interactions. -/
def runUploadActions (actions : List UploadAction) : List String :=
  actions.foldl applyUploadAction []

/- ======= client/src/hooks/useWebSocket.js + JobDetail.jsx effect ======= -/

/-- Shape of a parsed WebSocket message as read by the lastMessage effect in
client/src/pages/JobDetail.jsx: job_id, type, and the payload fields the
effect dereferences (current_doc, total_docs, progress, error). -/
structure WsMessage where
  job_id : String
  type : String
  current_doc : Nat
  total_docs : Nat
  progress : Nat
  error : Option String
deriving DecidableEq

/-- A toast as produced by addToast in App.jsx: message and type. -/
structure ToastMsg where
  message : String
  kind : String
deriving DecidableEq

/-- The client-side state the lastMessage effect of JobDetail.jsx mutates:
the displayed job status (none while the job object is not loaded), the
processing flag and overlay message, the toast list, and how many fetchJob
refreshes have been triggered. -/
structure DetailState where
  status : Option String
  processing : Bool
  processingMsg : String
  toasts : List ToastMsg
  refreshCount : Nat
deriving DecidableEq

/-- The template literal of the job_progress branch in JobDetail.jsx line 42. -/
def progressMsgText (cur tot pct : Nat) : String :=
  "Processing document " ++ toString cur ++ " of " ++ toString tot ++
    " (" ++ toString pct ++ "%)"

/-- Embedding of the lastMessage effect in client/src/pages/JobDetail.jsx,
lines 37 to 53: messages whose job_id differs from the viewed id are ignored;
a job_progress message sets the processing flag, the overlay text built from
current_doc, total_docs and progress, and optimistically sets the displayed
status to processing; job_completed and job_failed clear the processing flag,
trigger a fetchJob refresh, and toast the outcome (the failure toast uses
lastMessage.error with the JS or-else fallback Unknown error). The two type
tests are sequential ifs in the source; the translation keeps that shape. -/
def handleLastMessage (id : String) (m : WsMessage) (s : DetailState) : DetailState :=
  if m.job_id ≠ id then s
  else
    let s1 :=
      if m.type = "job_progress" then
        { s with processing := true, status := some "processing",
                 processingMsg := progressMsgText m.current_doc m.total_docs m.progress }
      else s
    if m.type = "job_completed" ∨ m.type = "job_failed" then
      let s2 := { s1 with processing := false, refreshCount := s1.refreshCount + 1 }
      if m.type = "job_completed" then
        { s2 with toasts := s2.toasts ++ [{ message := "Job completed successfully", kind := "success" }] }
      else
        { s2 with toasts := s2.toasts ++
            [{ message := "Job failed: " ++ jsOr m.error ("Unknown error"), kind := "error" }] }
    else s1

/-- Folding a stream of WebSocket messages through the lastMessage effect, in
the order useWebSocket.js delivers them (each ws.onmessage sets lastMessage,
and the effect runs per message). -/
def runWsMessages (id : String) (s : DetailState) (msgs : List WsMessage) : DetailState :=
  msgs.foldl (fun st m => handleLastMessage id m st) s

/-- The JobDetail state before any WebSocket message arrives. -/
def initialDetailState : DetailState :=
  { status := none, processing := false, processingMsg := "", toasts := [], refreshCount := 0 }

/- ====== JobDetail.jsx field selection and JobsDashboard.jsx retry ====== -/

/-- One entry of doc.detected_fields as consumed by JobDetail.jsx. -/
structure DetectedField where
  key : String
  label : String
  detected : Bool
deriving DecidableEq

/-- Embedding of the default field seeding in fetchJob and handleRunOCR of
client/src/pages/JobDetail.jsx, lines 21 to 24 and 66 to 69: the keys of the
detected fields when at least one field is detected, otherwise all keys. -/
def defaultSelectedFields (detectedFields : List DetectedField) : List String :=
  let detected := (detectedFields.filter fun f => f.detected).map fun f => f.key
  if detected.length > 0 then detected else detectedFields.map fun f => f.key

/-- Embedding of toggleField in client/src/pages/JobDetail.jsx, line 113: a
key already selected is removed, any other key is appended, independently of
its detected flag. -/
def toggleField (selected : List String) (key : String) : List String :=
  if key ∈ selected then selected.filter fun k => decide (k ≠ key)
  else selected ++ [key]

/-- Embedding of the Retry button visibility condition in
client/src/pages/JobsDashboard.jsx, line 129: the button renders exactly when
job.status is the string failed. -/
def retryButtonVisible (status : String) : Bool := status == "failed"

/- ============== spec-modelled backend: data model ============== -/

/-- Job lifecycle states, from the jobs.status column documented in the
repository README and spec section 4.4. -/
inductive JobStatus where
  | pending
  | processing
  | completed
  | failed
deriving DecidableEq

/-- Result of the text-extraction stage for one document: the text, the
0 to 100 confidence, and the engine tag, per the documents table of the
README schema (ocr_text, ocr_confidence, ocr_engine). -/
structure OcrResult where
  text : String
  confidence : ℚ
  engine : String
deriving DecidableEq

/-- One extractions row per the README schema and spec section 3: nullable
value, confidence, extraction method tag. -/
structure ExtractionField where
  value : Option String
  confidence : ℚ
  method : String
deriving DecidableEq

/-- The mutable per-document state the pipeline writes: text-extraction
result (none until stage 1 runs) and the extraction rows. -/
structure DocState where
  ocr : Option OcrResult
  fields : List ExtractionField
deriving DecidableEq

/-- The job-level state the state machine owns: status, nullable error
message, and the documents. -/
structure JobState where
  status : JobStatus
  error : Option String
  docs : List DocState
deriving DecidableEq

/- ============== spec-modelled backend: text extraction ============== -/

/-- Modelled from the spec: the stage-1 text extraction trigger
run_text_extraction of spec section 6 (server/ocr_engine.py and
server/routes.py are not in the repository). Where spec section 4.1 and the
repository documentation disagree, the in-repo README is followed: its
database schema documents documents.ocr_engine as the engine used (easyocr),
its pipeline section names EasyOCR as the stage-1 engine for every document,
and the v3.0 PRD lists native PDF extraction only as a planned draft feature.
So every document is processed by the OCR engine, recording the OCR text, the
engine aggregate score, and the tag easyocr, regardless of embedded text. -/
def run_text_extraction (_hasEmbeddedText : Bool) (ocrText : String) (ocrScore : ℚ) : OcrResult :=
  { text := ocrText, confidence := ocrScore, engine := "easyocr" }

/-- Follows the wording of spec section 4.1 and of claim C3, for comparison
with run_text_extraction: with embedded selectable text return it verbatim at
confidence 100 with engine tag native; otherwise OCR with the engine score
and a language-set tag. -/
def extract_text_spec (hasEmbeddedText : Bool) (nativeText ocrText : String)
    (ocrScore : ℚ) (languageSet : String) : OcrResult :=
  if hasEmbeddedText then { text := nativeText, confidence := 100, engine := "native" }
  else { text := ocrText, confidence := ocrScore, engine := "ocr:" ++ languageSet }

/- ============== spec-modelled backend: hybrid extraction ============== -/

/-- Modelled from the spec: the fixed pattern-confidence threshold of spec
section 4.3 (server/extractor.py is not in the repository), policy value 60. -/
def confidenceThreshold : ℚ := 60

/-- Modelled from the spec: deterministic normalization of a model-path
confidence into the 0 to 100 scale, spec section 4.3 step 2. -/
def normalizeModelConfidence (c : ℚ) : ℚ := min (max c 0) 100

/-- Modelled from the spec: the per-field hybrid extraction of spec section
4.3 (server/extractor.py is not in the repository). Inputs are the outcome of
the pattern strategy and of the model strategy on the document text for this
field (none when the strategy produced no value; a caller whose model
extractor is unavailable passes none for the model outcome, the field-level
degrade of section 4.3). A confident pattern match (at or above the
threshold) returns immediately with method pattern; otherwise the model
outcome, normalized, wins exactly when its confidence is strictly higher;
when neither strategy produced a value the row is value none, confidence 0,
method pattern, a successful outcome rather than an error. -/
def extractField (patOutcome modOutcome : Option (String × ℚ)) : ExtractionField :=
  match patOutcome with
  | some (v, c) =>
    if confidenceThreshold ≤ c then { value := some v, confidence := c, method := "pattern" }
    else
      match modOutcome with
      | some (v2, c2) =>
        let c2n := normalizeModelConfidence c2
        if c < c2n then { value := some v2, confidence := c2n, method := "model" }
        else { value := some v, confidence := c, method := "pattern" }
      | none => { value := some v, confidence := c, method := "pattern" }
  | none =>
    match modOutcome with
    | some (v2, c2) =>
      { value := some v2, confidence := normalizeModelConfidence c2, method := "model" }
    | none => { value := none, confidence := 0, method := "pattern" }

/-- Modelled from the spec: the extract contract of spec section 4.3
(server/extractor.py is not in the repository), producing one row per
selected field by running the two strategies (given as functions from field
key to outcome, the document text being fixed) through extractField. The
field-detection result is not an input: extraction depends only on the
selected keys and the strategies. -/
def hybridExtract (patStrategy modStrategy : String → Option (String × ℚ))
    (selectedFields : List String) : List (String × ExtractionField) :=
  selectedFields.map fun k => (k, extractField (patStrategy k) (modStrategy k))

/- ============== spec-modelled backend: confidence resolver ============== -/

/-- Modelled from the spec: arithmetic mean of a list of rationals (sum over
length; 0 for the empty list), used by the confidence resolver of spec
section 4.5 (server code not in the repository). -/
def listMean (xs : List ℚ) : ℚ := xs.sum / xs.length

/-- Modelled from the spec: the per-document aggregate confidence of spec
section 4.5 (server code not in the repository): the arithmetic mean of the
text-extraction confidence and of the mean of the extracted-field
confidences, rows with null value contributing their confidence 0. -/
def docAggregateConfidence (textConfidence : ℚ) (rows : List ExtractionField) : ℚ :=
  (textConfidence + listMean (rows.map ExtractionField.confidence)) / 2

/-- Pattern strategy of the spec section 8 scenario: one field matched at
confidence 85, the other not matched. -/
def scenarioPattern : String → Option (String × ℚ) :=
  fun k => if k = "field_a" then some ("matched-value", 85) else none

/-- Model strategy of the spec section 8 scenario: no model extractor. -/
def scenarioModel : String → Option (String × ℚ) := fun _ => none

/- ============== spec-modelled backend: retry ============== -/

/-- Modelled from the spec: the full rewind a retry applies to one document,
spec section 4.4 (retry clears all text and extraction fields). -/
def clearDocumentState (_d : DocState) : DocState := { ocr := none, fields := [] }

/-- Modelled from the spec: the retry stage trigger of spec sections 4.4, 6
and 7 (server/routes.py is not in the repository; the README documents the
endpoint as resetting a failed job to pending, clearing OCR and extraction
data). A failed job is rewound to pending with the error cleared and every
document cleared; on any other status the call fails with ValidationError. -/
def retry (j : JobState) : Except String JobState :=
  if j.status = JobStatus.failed then
    Except.ok { status := JobStatus.pending, error := none,
                docs := j.docs.map clearDocumentState }
  else
    Except.error ("ValidationError")

/-- Modelled from the spec: the state observed by the caller after a retry
call, spec section 7 (ValidationError is rejected synchronously without
mutating state): on success the rewound job, on ValidationError the job
exactly as it was, paired with the error. -/
def retryStep (j : JobState) : JobState × Option String :=
  match retry j with
  | Except.ok j2 => (j2, none)
  | Except.error e => (j, some e)

/-- A failed job with one processed document, used as a concrete fixture. -/
def failedJobFixture : JobState :=
  { status := JobStatus.failed, error := some "DecodeError",
    docs := [{ ocr := some { text := "total 12", confidence := 80, engine := "easyocr" },
               fields := [{ value := some "12", confidence := 85, method := "pattern" }] }] }

/- ===================== helper lemmas ===================== -/

/-- Messages addressed to another job leave the JobDetail state untouched. -/
theorem handleLastMessage_other (id : String) (m : WsMessage) (s : DetailState)
    (h : m.job_id ≠ id) : handleLastMessage id m s = s := by
  simp [handleLastMessage, h]

/-- Folding a message stream equals folding only the messages addressed to
the viewed job. -/
theorem runWsMessages_filter (id : String) (s : DetailState) (msgs : List WsMessage) :
    runWsMessages id s msgs =
      runWsMessages id s (msgs.filter fun m => decide (m.job_id = id)) := by
  induction msgs generalizing s with
  | nil => rfl
  | cons m rest ih =>
    by_cases h : m.job_id = id
    · simp only [runWsMessages, List.foldl_cons, List.filter_cons, decide_eq_true h, if_true]
      exact ih (handleLastMessage id m s)
    · simp only [runWsMessages, List.foldl_cons, List.filter_cons, decide_eq_false h, if_false,
        Bool.false_eq_true, handleLastMessage_other id m s h]
      exact ih s

/-- Extraction output keys are exactly the selected keys, in order. -/
theorem hybridExtract_keys (patStrategy modStrategy : String → Option (String × ℚ))
    (selectedFields : List String) :
    (hybridExtract patStrategy modStrategy selectedFields).map Prod.fst = selectedFields := by
  induction selectedFields with
  | nil => rfl
  | cons a t ih => simpa [hybridExtract] using ih

/-- Every file reachable in the pending list from an all-accepted pending
list is accepted by the extension filter. -/
theorem runUploadAux (actions : List UploadAction) (pending : List String)
    (h : ∀ name ∈ pending, fileAccepted name = true) :
    ∀ name ∈ actions.foldl applyUploadAction pending, fileAccepted name = true := by
  induction actions generalizing pending with
  | nil => exact h
  | cons a rest ih =>
    refine ih _ ?_
    intro name hn
    cases a with
    | add names =>
      simp only [applyUploadAction, handleFiles, List.mem_append, List.mem_filter] at hn
      rcases hn with h1 | h2
      · exact h _ h1
      · exact h2.2
    | removeAt i => exact h _ (List.eraseIdx_subset _ _ hn)
    | clear => simp [applyUploadAction] at hn

/- ===================== C1 ===================== -/

/-- C1 counterexample: the client-consumed event types are not progress,
completed, failed. A message of type progress addressed to the viewed job is
ignored by the JobDetail effect, while the type actually consumed is
job_progress; so the claim that every consumed job-scoped event has type
progress, completed or failed is false at this input. -/
theorem eventTypeNamesCounterexample :
    handleLastMessage ("j1")
        { job_id := "j1", type := "progress", current_doc := 1, total_docs := 2,
          progress := 50, error := none } initialDetailState = initialDetailState ∧
    handleLastMessage ("j1")
        { job_id := "j1", type := "job_progress", current_doc := 1, total_docs := 2,
          progress := 50, error := none } initialDetailState ≠ initialDetailState := by
  constructor
  · decide
  · decide

/-- C1 (amended): every WebSocket message that affects the JobDetail view has
job_id equal to the viewed job and type among job_progress, job_completed,
job_failed; a matching job_progress message sets the processing flag, the
optimistic processing status, and the overlay text built from the payload
fields current_doc, total_docs and progress; matching job_completed and
job_failed messages are terminal for the overlay (processing cleared, state
refreshed) and toast the outcome, the failure toast carrying the error
payload field. -/
theorem handledEventTypes (id : String) (m : WsMessage) (s : DetailState) :
    (handleLastMessage id m s ≠ s →
      m.job_id = id ∧
        (m.type = "job_progress" ∨ m.type = "job_completed" ∨ m.type = "job_failed")) ∧
    (m.job_id = id → m.type = "job_progress" →
      handleLastMessage id m s =
        { s with processing := true, status := some "processing",
                 processingMsg := progressMsgText m.current_doc m.total_docs m.progress }) ∧
    (m.job_id = id → m.type = "job_completed" →
      handleLastMessage id m s =
        { s with processing := false, refreshCount := s.refreshCount + 1,
                 toasts := s.toasts ++
                   [{ message := "Job completed successfully", kind := "success" }] }) ∧
    (m.job_id = id → m.type = "job_failed" →
      handleLastMessage id m s =
        { s with processing := false, refreshCount := s.refreshCount + 1,
                 toasts := s.toasts ++
                   [{ message := "Job failed: " ++ jsOr m.error ("Unknown error"),
                      kind := "error" }] }) := by
  refine ⟨?_, ?_, ?_, ?_⟩
  · intro hne
    by_cases hid : m.job_id = id
    · refine ⟨hid, ?_⟩
      by_cases h1 : m.type = "job_progress"
      · exact Or.inl h1
      by_cases h2 : m.type = "job_completed"
      · exact Or.inr (Or.inl h2)
      by_cases h3 : m.type = "job_failed"
      · exact Or.inr (Or.inr h3)
      exact absurd (by simp [handleLastMessage, hid, h1, h2, h3]) hne
    · exact absurd (handleLastMessage_other id m s hid) hne
  · intro hid ht
    simp [handleLastMessage, hid, ht]
  · intro hid ht
    simp [handleLastMessage, hid, ht]
  · intro hid ht
    simp [handleLastMessage, hid, ht]

/-- C1 witness: the amended theorem evaluated on a concrete job_progress
message addressed to the viewed job. -/
theorem handledEventTypes_witness :
    handleLastMessage ("j1")
        { job_id := "j1", type := "job_progress", current_doc := 1, total_docs := 3,
          progress := 33, error := none } initialDetailState =
      { initialDetailState with
          processing := true, status := some "processing",
          processingMsg := progressMsgText 1 3 33 } :=
  (handledEventTypes ("j1")
      { job_id := "j1", type := "job_progress", current_doc := 1, total_docs := 3,
        progress := 33, error := none } initialDetailState).2.1 rfl rfl

/- ===================== C2 ===================== -/

/-- C2 counterexample: on the spec section 8 scenario (text confidence 92,
one field matched by pattern at 85, one unmatched) the documented resolver
formula, the mean of the text confidence and of the mean of the field
confidences, does not yield 59: it yields mean(92, mean(85, 0)) = 67.25. The
claim conjoins the formula with the flat value mean(92, 85, 0) = 59, which
the formula contradicts. -/
theorem aggregateConfidenceScenarioCounterexample :
    docAggregateConfidence 92
        ((hybridExtract scenarioPattern scenarioModel ["field_a", "field_b"]).map Prod.snd)
      ≠ 59 := by
  simp [hybridExtract, scenarioPattern, scenarioModel, extractField, confidenceThreshold,
    docAggregateConfidence, listMean]
  norm_num

/-- C2 (amended): the per-document aggregate confidence is the arithmetic
mean of the text-extraction confidence and of the mean of the extracted-field
confidences, null-valued fields contributing 0; on the scenario document
(OCR confidence 92, one pattern match at 85, one unmatched field) the
aggregate is mean(92, mean(85, 0)) = 67.25 = 269/4, both when the rows come
out of the hybrid extraction engine and on the rows written directly. -/
theorem aggregateConfidenceScenario :
    docAggregateConfidence 92
        ((hybridExtract scenarioPattern scenarioModel ["field_a", "field_b"]).map Prod.snd)
      = 269/4 ∧
    docAggregateConfidence 92
        [{ value := some "matched-value", confidence := 85, method := "pattern" },
         { value := none, confidence := 0, method := "pattern" }]
      = 269/4 := by
  constructor
  · simp [hybridExtract, scenarioPattern, scenarioModel, extractField, confidenceThreshold,
      docAggregateConfidence, listMean]
    norm_num
  · simp [docAggregateConfidence, listMean]
    norm_num

/- ===================== C3 ===================== -/

/-- C3 counterexample: for a document with embedded selectable text the
modelled stage-1 extraction records engine tag easyocr and the OCR score,
while the claim (and spec section 4.1 wording, embedded as extract_text_spec)
demands tag native and confidence exactly 100; the two disagree at this
concrete document. -/
theorem nativeEngineCounterexample :
    (run_text_extraction true ("embedded text") 87).engine = "easyocr" ∧
    (run_text_extraction true ("embedded text") 87).confidence = 87 ∧
    (extract_text_spec true ("embedded text") ("embedded text") 87 ("en")).engine = "native" ∧
    (extract_text_spec true ("embedded text") ("embedded text") 87 ("en")).confidence = 100 ∧
    (run_text_extraction true ("embedded text") 87).engine ≠
      (extract_text_spec true ("embedded text") ("embedded text") 87 ("en")).engine := by
  refine ⟨rfl, rfl, rfl, rfl, ?_⟩
  decide

/-- C3 (amended): in the shipped v2.0 pipeline every document, embedded text
or not, is processed by the OCR engine: the recorded engine tag is easyocr,
never native, and the recorded confidence is the OCR aggregate score rather
than a fixed 100 (native extraction is only a v3.0 draft feature). -/
theorem textExtractionEngineTag (hasEmbeddedText : Bool) (ocrText : String) (ocrScore : ℚ) :
    (run_text_extraction hasEmbeddedText ocrText ocrScore).engine = "easyocr" ∧
    (run_text_extraction hasEmbeddedText ocrText ocrScore).engine ≠ "native" ∧
    (run_text_extraction hasEmbeddedText ocrText ocrScore).confidence = ocrScore := by
  refine ⟨rfl, ?_, rfl⟩
  show ("easyocr" : String) ≠ "native"
  decide

/- ===================== C4 ===================== -/

/-- C4: for every selected field on which neither the pattern strategy nor
the model strategy produced a value, the extraction output contains the row
value none, confidence 0, method pattern for that field: explicit not-found
is a successful outcome of the total extraction function, never an error. -/
theorem notFoundFieldRow (patStrategy modStrategy : String → Option (String × ℚ))
    (selectedFields : List String) (k : String)
    (hk : k ∈ selectedFields) (hp : patStrategy k = none) (hm : modStrategy k = none) :
    (k, ({ value := none, confidence := 0, method := "pattern" } : ExtractionField))
      ∈ hybridExtract patStrategy modStrategy selectedFields := by
  have hrow : extractField (patStrategy k) (modStrategy k) =
      { value := none, confidence := 0, method := "pattern" } := by
    rw [hp, hm]
    rfl
  exact List.mem_map.mpr ⟨k, hk, by rw [hrow]⟩

/-- C4 witness: the theorem evaluated with both strategies empty on a
singleton selection. -/
theorem notFoundFieldRow_witness :
    ("invoice_number", ({ value := none, confidence := 0, method := "pattern" } : ExtractionField))
      ∈ hybridExtract (fun _ => none) (fun _ => none) ["invoice_number"] :=
  notFoundFieldRow (fun _ => none) (fun _ => none) ["invoice_number"] ("invoice_number")
    (by simp) rfl rfl

/- ===================== C5 ===================== -/

/-- The raw OCR text confidence as rendered by JobDetail.jsx line 337:
Math.round(activeDoc.ocr_confidence or-else 0). -/
def displayedOcrConfidence (c : Option ℚ) : ℤ := jsMathRound (c.getD 0)

/-- The field confidence as rendered by the confidence cell of
JobDetail.jsx lines 317 to 326: shown verbatim when the field has a truthy
value, and replaced by a dash (none) otherwise; no rounding, no clamping. -/
def displayedFieldConfidence (value : Option String) (c : ℚ) : Option ℚ :=
  if jsTruthy value then some c else none

/-- C5 counterexample: a field confidence of 85.5 is displayed verbatim as
85.5, which is not an integer, and an out-of-range OCR confidence of 150 is
rounded but not clamped, displaying 150; so the claim that every confidence
shown at the presentation boundary is an integer in the range 0 to 100 is
false at these inputs. -/
theorem fieldConfidenceDisplayCounterexample :
    displayedFieldConfidence (some "INV-42") (171/2) = some (171/2) ∧
    (¬ ∃ n : ℤ, (171 : ℚ)/2 = (n : ℚ)) ∧
    displayedOcrConfidence (some 150) = 150 ∧
    (100 : ℤ) < displayedOcrConfidence (some 150) := by
  have h150 : displayedOcrConfidence (some 150) = 150 := by
    show jsMathRound ((some (150 : ℚ)).getD 0) = 150
    norm_num [jsMathRound, Option.getD]
  refine ⟨by simp [displayedFieldConfidence, jsTruthy], ?_, h150, by rw [h150]; norm_num⟩
  rintro ⟨n, hn⟩
  have h2 : ((2 * n : ℤ) : ℚ) = 171 := by push_cast; linarith
  have h3 : (2 * n : ℤ) = 171 := by exact_mod_cast h2
  omega

/-- C5 (amended): at the client presentation boundary only the raw OCR text
confidence is rounded to an integer (Math.round of the stored value, 0 when
missing, within one half of the stored value, with no clamping), while field
confidences are displayed verbatim, unrounded and unclamped, when the field
has a value and as a dash otherwise; presentation-boundary integrality and
range therefore hold only if the backend already stores such values. -/
theorem presentationRoundingBehavior (c : ℚ) (v : Option String) (fc : ℚ) :
    |((displayedOcrConfidence (some c) : ℤ) : ℚ) - c| ≤ 1/2 ∧
    displayedOcrConfidence none = 0 ∧
    (jsTruthy v = true → displayedFieldConfidence v fc = some fc) ∧
    (jsTruthy v = false → displayedFieldConfidence v fc = none) := by
  refine ⟨?_, ?_, ?_, ?_⟩
  · show |((jsMathRound ((some c).getD 0) : ℤ) : ℚ) - c| ≤ 1/2
    rw [Option.getD]
    unfold jsMathRound
    have h1 := Int.floor_le (c + 1/2)
    have h2 := Int.lt_floor_add_one (c + 1/2)
    rw [abs_le]
    constructor <;> [linarith; linarith]
  · show jsMathRound ((none : Option ℚ).getD 0) = 0
    norm_num [jsMathRound, Option.getD]
  · intro h
    simp [displayedFieldConfidence, h]
  · intro h
    simp [displayedFieldConfidence, h]

/-- C5 witness: the amended theorem evaluated at a field with a value and a
fractional confidence, displayed verbatim. -/
theorem presentationRoundingBehavior_witness :
    displayedFieldConfidence (some "NET 30") (171/2) = some (171/2) :=
  (presentationRoundingBehavior 0 (some "NET 30") (171/2)).2.2.1 rfl

/- ===================== C6 ===================== -/

/-- C6: retry applies exactly to failed jobs. A failed job is rewound to
pending with the error message cleared and all per-document text and
extraction state discarded; a retry on a job in any other status fails with
ValidationError and the observed job state is exactly the input state; and
the dashboard renders the Retry button exactly for jobs whose status string
is failed. -/
theorem retrySemantics (j : JobState) :
    (j.status = JobStatus.failed →
      retry j = Except.ok { status := JobStatus.pending, error := none,
                            docs := j.docs.map clearDocumentState }) ∧
    (j.status ≠ JobStatus.failed → retryStep j = (j, some "ValidationError")) ∧
    (∀ s : String, retryButtonVisible s = true ↔ s = "failed") := by
  refine ⟨?_, ?_, ?_⟩
  · intro h
    simp [retry, h]
  · intro h
    simp [retryStep, retry, h]
  · intro s
    simp [retryButtonVisible]

/-- C6 witness: the theorem evaluated on a concrete failed job with one
processed document, and on a pending job. -/
theorem retrySemantics_witness :
    retry failedJobFixture =
      Except.ok { status := JobStatus.pending, error := none,
                  docs := [{ ocr := none, fields := [] }] } ∧
    retryStep { status := JobStatus.pending, error := none, docs := [] } =
      ({ status := JobStatus.pending, error := none, docs := [] }, some "ValidationError") :=
  ⟨(retrySemantics failedJobFixture).1 rfl,
   (retrySemantics { status := JobStatus.pending, error := none, docs := [] }).2.1 (by decide)⟩

/- ===================== C7 ===================== -/

/-- C7: field detection is advisory only. The extraction output covers
exactly the selected keys whatever the detection outcome (detection is not an
input of the extraction engine); any key not yet selected, detected or not,
is added to the selection by its checkbox and is then covered by the
extraction output; and the detection result only seeds the default selection:
the detected keys when at least one field is detected, all keys otherwise. -/
theorem detectionAdvisoryOnly (patStrategy modStrategy : String → Option (String × ℚ))
    (selected : List String) (df : List DetectedField) (k : String) :
    ((hybridExtract patStrategy modStrategy selected).map Prod.fst = selected) ∧
    (k ∉ selected → toggleField selected k = selected ++ [k]) ∧
    (k ∉ selected →
      k ∈ (hybridExtract patStrategy modStrategy (toggleField selected k)).map Prod.fst) ∧
    ((df.filter fun f => f.detected) ≠ [] →
      defaultSelectedFields df = (df.filter fun f => f.detected).map fun f => f.key) ∧
    ((df.filter fun f => f.detected) = [] →
      defaultSelectedFields df = df.map fun f => f.key) := by
  refine ⟨hybridExtract_keys patStrategy modStrategy selected, ?_, ?_, ?_, ?_⟩
  · intro h
    simp [toggleField, h]
  · intro h
    rw [hybridExtract_keys]
    simp [toggleField, h]
  · intro h
    have hl : ((df.filter fun f => f.detected).map fun f => f.key).length > 0 := by
      simpa [List.length_pos] using h
    unfold defaultSelectedFields
    rw [if_pos hl]
  · intro h
    simp [defaultSelectedFields, h]

/-- C7 witness: the theorem evaluated on a selection that does not contain
the key address, which the checkbox toggle then adds. -/
theorem detectionAdvisoryOnly_witness :
    toggleField ["invoice_number"] ("address") = ["invoice_number", "address"] :=
  (detectionAdvisoryOnly (fun _ => none) (fun _ => none) ["invoice_number"] []
      ("address")).2.1 (by decide)

/- ===================== C8 ===================== -/

/-- C8: a 401 response makes request remove the stored token and user,
redirect the window location to the root, and fail with Session expired; any
other non-ok response leaves the store (credentials and location) unchanged
and fails with the detail message of the parsed body when that is non-empty,
else with its error message when that is non-empty, else with Request failed,
and with statusText as the detail when the body is not JSON. -/
theorem requestErrorHandling (st : AuthStore) (res : HttpResponse) :
    (res.status = 401 →
      request st res = (ReqResult.failure ("Session expired"),
        { token := none, user := none, location := "/" })) ∧
    (res.status ≠ 401 → resOk res.status = false →
      (request st res).2 = st ∧
      (∀ b d, res.body = some b → b.detail = some d → d ≠ "" →
        (request st res).1 = ReqResult.failure d) ∧
      (∀ b e, res.body = some b → b.detail = none → b.error = some e → e ≠ "" →
        (request st res).1 = ReqResult.failure e) ∧
      (res.body = none → res.statusText ≠ "" →
        (request st res).1 = ReqResult.failure res.statusText)) := by
  refine ⟨?_, ?_⟩
  · intro h
    simp [request, h]
  · intro h1 h2
    refine ⟨by simp [request, h1, h2], ?_, ?_, ?_⟩
    · intro b d hb hd hne
      simp [request, h1, h2, hb, hd, jsOr, hne]
    · intro b e hb hd he hne
      simp [request, h1, h2, hb, hd, he, jsOr, hne]
    · intro hb hne
      simp [request, h1, h2, hb, jsOr, hne]

/-- C8 witness: the theorem evaluated on a concrete 401 response with stored
credentials, and on a concrete 422 response carrying a detail message. -/
theorem requestErrorHandling_witness :
    request { token := some "tok", user := some "usr", location := "/jobs" }
        { status := 401, statusText := "Unauthorized", body := none } =
      (ReqResult.failure ("Session expired"),
        { token := none, user := none, location := "/" }) ∧
    (request { token := some "tok", user := some "usr", location := "/jobs" }
        { status := 422, statusText := "Unprocessable Entity",
          body := some { detail := some "No fields selected", error := none } }).1 =
      ReqResult.failure ("No fields selected") :=
  ⟨(requestErrorHandling { token := some "tok", user := some "usr", location := "/jobs" }
      { status := 401, statusText := "Unauthorized", body := none }).1 rfl,
   ((requestErrorHandling { token := some "tok", user := some "usr", location := "/jobs" }
      { status := 422, statusText := "Unprocessable Entity",
        body := some { detail := some "No fields selected", error := none } }).2
      (by decide) (by decide)).2.1
      { detail := some "No fields selected", error := none } ("No fields selected")
      rfl rfl (by decide)⟩

/- ===================== C9 ===================== -/

/-- C9 counterexample: a dotless file named pdf has no name extension, yet
the upload filter accepts it, because the JS expression a dot prepended to
name.split(dot).pop() yields .pdf for it; so acceptance is not exactly
acceptance of the files whose name extension is in the allowed list. -/
theorem uploadFilterCounterexample :
    fileAccepted ("pdf") = true ∧
    fileExtension ("pdf") = none ∧
    jsFileExt ("pdf") = ".pdf" := by
  refine ⟨by decide, by decide, by decide⟩

/-- C9 (amended): the upload page accepts exactly the files for which a dot
prepended to the segment of the name after its last dot (the whole name when
it contains no dot), lowercased, lies in the allowed list .pdf, .png, .jpg,
.jpeg, .bmp, .tiff, .tif, .webp; whatever sequence of add, remove and clear
interactions produced the pending list, every file in it (and hence every
file ever sent to the upload endpoint) passes that filter, a rejected file
raises the unsupported-format warning, and the upload action is a no-op on an
empty pending list. -/
theorem uploadFilterInvariant (actions : List UploadAction) (pending newFiles : List String) :
    (∀ name ∈ runUploadActions actions, fileAccepted name = true) ∧
    handleUpload [] = none ∧
    (pending ≠ [] → handleUpload pending = some pending) ∧
    ((handleFiles pending newFiles).2 = true ↔
      (newFiles.filter fileAccepted).length < newFiles.length) := by
  refine ⟨?_, rfl, ?_, ?_⟩
  · exact runUploadAux actions [] (by simp)
  · intro h
    simp [handleUpload, h]
  · simp [handleFiles]

/-- C9 witness: the theorem evaluated after adding a valid and an invalid
file: the pending list keeps only the valid file, and a nonempty pending list
is sent as is. -/
theorem uploadFilterInvariant_witness :
    handleUpload ["scan.png"] = some ["scan.png"] :=
  (uploadFilterInvariant [] ["scan.png"] []).2.2.1 (by decide)

/- ===================== C10 ===================== -/

/-- C10: the JobDetail view ignores every WebSocket message whose job_id
differs from the viewed job: two message streams that agree on the
subsequence addressed to the viewed job drive the view (status, processing
flag, overlay text, toasts, refreshes) to the same state. -/
theorem wsJobIdIsolation (id : String) (s : DetailState) (msgs1 msgs2 : List WsMessage)
    (h : msgs1.filter (fun m => decide (m.job_id = id)) =
         msgs2.filter (fun m => decide (m.job_id = id))) :
    runWsMessages id s msgs1 = runWsMessages id s msgs2 := by
  rw [runWsMessages_filter id s msgs1, runWsMessages_filter id s msgs2, h]

/-- C10 witness: the theorem evaluated on two concrete streams differing only
in a job_failed message addressed to another job. -/
theorem wsJobIdIsolation_witness :
    runWsMessages ("j1") initialDetailState
        [{ job_id := "j1", type := "job_completed", current_doc := 0, total_docs := 0,
           progress := 0, error := none },
         { job_id := "j2", type := "job_failed", current_doc := 0, total_docs := 0,
           progress := 0, error := some "boom" }] =
      runWsMessages ("j1") initialDetailState
        [{ job_id := "j1", type := "job_completed", current_doc := 0, total_docs := 0,
           progress := 0, error := none }] :=
  wsJobIdIsolation ("j1") initialDetailState
    [{ job_id := "j1", type := "job_completed", current_doc := 0, total_docs := 0,
       progress := 0, error := none },
     { job_id := "j2", type := "job_failed", current_doc := 0, total_docs := 0,
       progress := 0, error := some "boom" }]
    [{ job_id := "j1", type := "job_completed", current_doc := 0, total_docs := 0,
       progress := 0, error := none }]
    (by decide)
